import Mathlib

/-!
Shallow embedding of `src/tempmail.py` (AXEEEH TempMail, a single-file
terminal temp-mail client backed by the 1secmail HTTP API).

Modelling conventions:
* Python strings that are only rendered are Lean `String`s; the mailbox
  address and its `login`/`domain` parts are `List Char`, so that
  `email.split("@")` becomes structural recursion (`splitAtChar`).
* A network call's outcome is an explicit input `Fetch α`: either the
  decoded payload or one of the failure kinds the code catches
  (network error, timeout, non-2xx from `raise_for_status`, JSON decode
  error).  The Python functions are then total Lean functions of that
  outcome.
* A JSON object field that may be absent or `null` is `Option String`;
  Python's `a or b` defaulting (`None` and `""` are falsy) is `pyOrStr`,
  and f-string interpolation of a possibly-`None` value is `pyNoneStr`.
* The single-slot cell `container = [fast_msgs]` shared with the
  background thread is `Cell`: the `is`/`is not` identity test against
  the original `fast_msgs` object distinguishes the untouched cell from
  one overwritten by the thread, which always installs a freshly
  allocated list (`r.json()` or a new `[]` literal).
-/

/-- Failure kinds a `requests` call in the script can raise and that the
`except Exception` handlers catch. -/
inductive FetchError where
  | network
  | timeout
  | badStatus
  | badJson
  deriving DecidableEq

/-- Outcome of one HTTP round-trip: decoded payload or a caught failure. -/
inductive Fetch (α : Type) where
  | success : α → Fetch α
  | failure : FetchError → Fetch α
  deriving DecidableEq

/-- A message as returned by the `getMessages` listing: a JSON object whose
`id`, `from`, `subject` fields may each be absent or null. -/
structure MsgSummary where
  id : Option String
  from_ : Option String
  subject : Option String
  deriving DecidableEq

/-- A full message as returned by `readMessage`; `intro` stands for the
short preview field some providers attach to a payload (the script never
reads it, but a payload may carry it). -/
structure MsgFull where
  id : Option String
  from_ : Option String
  subject : Option String
  textBody : Option String
  htmlBody : Option String
  intro : Option String
  deriving DecidableEq

/-- Python `a or b` for a possibly-missing string field with a string
default: `None` and the empty string are falsy. -/
def pyOrStr (a : Option String) (b : String) : String :=
  match a with
  | some s => if s = "" then b else s
  | none => b

/-- Python f-string interpolation of a possibly-`None` value: `None`
renders as the four-character string `None`. -/
def pyNoneStr : Option String → String
  | some s => s
  | none => "None"

/-- The HTTP requests the script can issue against a provider's
mailbox-creation endpoint. -/
inductive ProviderCall where
  | primaryCreate
  | fallbackCreate
  deriving DecidableEq

/-- `secmail_get_mailbox` (tempmail.py lines 96-103): one GET with
`action=genRandomMailbox`; on success returns the first array element,
on any exception logs and re-raises.  Result: the list of provider calls
made, and the returned address or the propagated error. -/
def secmail_get_mailbox (r : Fetch (List Char)) :
    List ProviderCall × Except FetchError (List Char) :=
  ([ProviderCall.primaryCreate],
   match r with
   | .success a => .ok a
   | .failure e => .error e)

/-- `secmail_list_messages` (lines 105-112): on any exception logs and
returns the empty list. -/
def secmail_list_messages (r : Fetch (List MsgSummary)) : List MsgSummary :=
  match r with
  | .success ms => ms
  | .failure _ => []

/-- `secmail_read_message` (lines 114-121): on any exception logs and
returns `None`. -/
def secmail_read_message (r : Fetch MsgFull) : Option MsgFull :=
  match r with
  | .success m => some m
  | .failure _ => none

/-- The `From` column of one `show_inbox` table row (line 136):
`m.get("from") or "(unknown)"`. -/
def inbox_row_from (m : MsgSummary) : String :=
  pyOrStr m.from_ ("(unknown)")

/-- The `Subject` column of one `show_inbox` table row (lines 137-139):
`m.get("subject") or "(no subject)"`, truncated past 50 characters. -/
def inbox_row_subject (m : MsgSummary) : String :=
  let subj := pyOrStr m.subject ("(no subject)")
  if subj.length > 50 then subj.take 47 ++ "..." else subj

/-- The `From:` line printed by the read-message view (line 243):
`f"From: {msg.get('from')}"` — no sentinel substitution. -/
def read_view_from_line (m : MsgFull) : String :=
  "From: " ++ pyNoneStr m.from_

/-- The `Subject:` line printed by the read-message view (line 244). -/
def read_view_subject_line (m : MsgFull) : String :=
  "Subject: " ++ pyNoneStr m.subject

/-- The body printed by the read-message view (line 245):
`msg.get("textBody") or msg.get("htmlBody") or "(no body)"`. -/
def message_body (m : MsgFull) : String :=
  pyOrStr m.textBody (pyOrStr m.htmlBody ("(no body)"))

/-- The body written to disk by `save_message` (line 166): same
expression as the read view's. -/
def save_message_body (m : MsgFull) : String :=
  pyOrStr m.textBody (pyOrStr m.htmlBody ("(no body)"))

/-- Stated from the claim's wording, for comparison with `message_body`:
body preference order including the preview/intro field as a third step
before the sentinel. -/
def claimed_message_body (m : MsgFull) : String :=
  pyOrStr m.textBody (pyOrStr m.htmlBody (pyOrStr m.intro ("(no body)")))

/-- The single-slot cell `container = [fast_msgs]`, distinguishing the
original `fast_msgs` object from a freshly allocated list written by the
background thread (`container[0] is not fast_msgs` is exactly "the cell
is no longer `fastObj`"). -/
inductive Cell where
  | fastObj (ms : List MsgSummary)
  | refreshedObj (ms : List MsgSummary)
  deriving DecidableEq

/-- The identity test `container[0] is fast_msgs`. -/
def isFastObj : Cell → Bool
  | .fastObj _ => true
  | .refreshedObj _ => false

/-- `background_refresh` (lines 177-183): sleep, then overwrite the cell
with `secmail_list_messages`'s result (always a fresh object); only if
the sleep or the assignment itself raises does the `except` branch leave
the cell as-is. -/
def background_refresh (sleepFails : Bool) (r : Fetch (List MsgSummary))
    (cell : Cell) : Cell :=
  if sleepFails then cell
  else Cell.refreshedObj (secmail_list_messages r)

/-- The "Inbox updated." flag of menu choice 1 (lines 211-223): after
`t.join(timeout=0.05)`, set iff the thread is no longer alive
(`completedInWindow`) and `container[0] is not fast_msgs`. -/
def fast_inbox_flag (fastR bgR : Fetch (List MsgSummary))
    (sleepFails completedInWindow : Bool) : Bool :=
  let fast_msgs := secmail_list_messages fastR
  let cellAtJoin :=
    if completedInWindow then
      background_refresh sleepFails bgR (Cell.fastObj fast_msgs)
    else Cell.fastObj fast_msgs
  completedInWindow && !(isFastObj cellAtJoin)

/-- The cell once the detached background thread has run to completion,
whether or not the observation window caught it. -/
def fast_inbox_final_cell (fastR bgR : Fetch (List MsgSummary))
    (sleepFails : Bool) : Cell :=
  background_refresh sleepFails bgR (Cell.fastObj (secmail_list_messages fastR))

/-- Stated from the claim's wording, for comparison with
`fast_inbox_flag`: the flag is set iff the refresh completed within the
window and its result differs (as content) from the fast result. -/
def claimed_updated_flag (fast bg : List MsgSummary)
    (completedInWindow : Bool) : Bool :=
  completedInWindow && decide (bg ≠ fast)

/-- Python's `s.split(sep)` for a one-character separator, on the
character-list model of strings: split at every occurrence; the result
always has (number of occurrences + 1) pieces. -/
def splitAtChar (sep : Char) : List Char → List (List Char)
  | [] => [[]]
  | c :: cs =>
    let r := splitAtChar sep cs
    if c = sep then [] :: r
    else
      match r with
      | [] => [[c]]
      | h :: t => (c :: h) :: t

/-- Python's two-target unpacking `login, domain = pieces`: succeeds
exactly when there are two pieces, otherwise raises `ValueError`
(modelled as `none`). -/
def unpack2 (l : List (List Char)) : Option (List Char × List Char) :=
  match l with
  | [a, b] => some (a, b)
  | _ => none

/-- The mutable session variables of `run_interface`: the address string
and the `login`/`domain` halves produced by `email.split("@")`, plus the
`last_count` used by menu choice 5. -/
structure SessionState where
  email : List Char
  login : List Char
  domain : List Char
  last_count : Nat
  deriving DecidableEq

/-- Outcome of the initialization path of `run_interface`
(lines 188-197): the `try` covers only the startup sequence and the
`secmail_get_mailbox()` call; the `email.split("@")` unpacking sits
outside it, so a split that does not yield two pieces raises an
unhandled `ValueError`. -/
inductive InitOutcome where
  | failedInit
  | crashed
  | started (st : SessionState)
  deriving DecidableEq

/-- Initialization of `run_interface` as a function of the
mailbox-creation outcome. -/
def run_interface_init (r : Fetch (List Char)) : InitOutcome :=
  match (secmail_get_mailbox r).2 with
  | .error _ => .failedInit
  | .ok email =>
    match unpack2 (splitAtChar '@' email) with
    | some (l, d) => .started ⟨email, l, d, 0⟩
    | none => .crashed

/-- The provider calls issued by the initialization path. -/
def run_interface_init_calls (r : Fetch (List Char)) : List ProviderCall :=
  (secmail_get_mailbox r).1

/-- One menu choice together with the network outcomes and thread timing
its handler observes during this loop iteration. -/
inductive Choice where
  | showFast (fastR : Fetch (List MsgSummary)) (sleepFails : Bool)
      (bgR : Fetch (List MsgSummary)) (completedInWindow : Bool)
  | readMsg (listR : Fetch (List MsgSummary)) (msgIdInput : String)
      (readR : Fetch MsgFull)
  | changeEmail (r : Fetch (List Char))
  | copyAddr
  | refresh (listR : Fetch (List MsgSummary))
  deriving DecidableEq

/-- What one pass of the menu loop leaves behind: the session state plus
the two user-visible notifications. -/
structure StepOut where
  state : SessionState
  newMailReport : Bool
  updatedFlag : Bool
  deriving DecidableEq

/-- One iteration of the `while True` menu loop of `run_interface`
(lines 199-277), as a function of the session state and the chosen
branch.  Choice 3 assigns `email` first and only then splits it inside
the same `try`, so a split failure is caught after `email` has already
been replaced. -/
def menu_step (st : SessionState) : Choice → StepOut
  | .showFast fastR sleepFails bgR completedInWindow =>
    ⟨st, false, fast_inbox_flag fastR bgR sleepFails completedInWindow⟩
  | .readMsg _ _ _ => ⟨st, false, false⟩
  | .changeEmail r =>
    match (secmail_get_mailbox r).2 with
    | .error _ => ⟨st, false, false⟩
    | .ok email =>
      match unpack2 (splitAtChar '@' email) with
      | some (l, d) => ⟨⟨email, l, d, st.last_count⟩, false, false⟩
      | none => ⟨⟨email, st.login, st.domain, st.last_count⟩, false, false⟩
  | .copyAddr => ⟨st, false, false⟩
  | .refresh listR =>
    let msgs := secmail_list_messages listR
    ⟨⟨st.email, st.login, st.domain, msgs.length⟩,
     decide (msgs.length > st.last_count), false⟩

/-- `splitAtChar` never returns an empty list of pieces. -/
theorem splitAtChar_ne_nil (sep : Char) (s : List Char) :
    splitAtChar sep s ≠ [] := by
  induction s with
  | nil => simp [splitAtChar]
  | cons c cs ih =>
    simp only [splitAtChar]
    by_cases h : c = sep
    · simp [h]
    · simp only [h, if_false]
      cases hr : splitAtChar sep cs with
      | nil => simp
      | cons hd tl => simp

/-- The number of pieces is one more than the number of separator
occurrences. -/
theorem splitAtChar_length (sep : Char) (s : List Char) :
    (splitAtChar sep s).length = s.count sep + 1 := by
  induction s with
  | nil => simp [splitAtChar]
  | cons c cs ih =>
    simp only [splitAtChar]
    by_cases h : c = sep
    · simp [h, List.count_cons, ih]
    · simp only [h, if_false]
      cases hr : splitAtChar sep cs with
      | nil => exact absurd hr (splitAtChar_ne_nil sep cs)
      | cons hd tl =>
        rw [hr] at ih
        simp only [List.length_cons] at ih ⊢
        simp [List.count_cons, h, ih]

/-- A one-piece split means the separator never occurred and the piece
is the whole string. -/
theorem splitAtChar_singleton (sep : Char) (s x : List Char)
    (h : splitAtChar sep s = [x]) : s = x := by
  induction s generalizing x with
  | nil => simpa [splitAtChar] using h.symm
  | cons c cs ih =>
    simp only [splitAtChar] at h
    by_cases hc : c = sep
    · simp only [hc, if_true, List.cons.injEq] at h
      exact absurd h.2 (splitAtChar_ne_nil sep cs)
    · simp only [hc, if_false] at h
      cases hr : splitAtChar sep cs with
      | nil => exact absurd hr (splitAtChar_ne_nil sep cs)
      | cons hd tl =>
        rw [hr] at h
        simp only [List.cons.injEq] at h
        obtain ⟨hx, htl⟩ := h
        subst htl
        rw [← hx, ih hd hr]

/-- A two-piece split reassembles to the original string with the
separator in between. -/
theorem splitAtChar_pair (sep : Char) (s l d : List Char)
    (h : splitAtChar sep s = [l, d]) : s = l ++ sep :: d := by
  induction s generalizing l with
  | nil => simp [splitAtChar] at h
  | cons c cs ih =>
    simp only [splitAtChar] at h
    by_cases hc : c = sep
    · simp only [hc, if_true, List.cons.injEq] at h
      obtain ⟨hl, hr⟩ := h
      rw [← hl, List.nil_append, hc, splitAtChar_singleton sep cs d hr]
    · simp only [hc, if_false] at h
      cases hq : splitAtChar sep cs with
      | nil => exact absurd hq (splitAtChar_ne_nil sep cs)
      | cons hd tl =>
        rw [hq] at h
        simp only [List.cons.injEq] at h
        obtain ⟨hl, htl⟩ := h
        rw [htl] at hq
        rw [← hl, List.cons_append, ih hd hq]

/-- Unpacking fails whenever there are not exactly two pieces. -/
theorem unpack2_eq_none (l : List (List Char)) (h : l.length ≠ 2) :
    unpack2 l = none := by
  cases l with
  | nil => rfl
  | cons a t =>
    cases t with
    | nil => rfl
    | cons b t2 =>
      cases t2 with
      | nil => simp at h
      | cons c t3 => rfl

/-- Frame fact for menu choice 3: whatever the creation outcome and
however the split goes, `last_count` is untouched and no new-mail report
is emitted. -/
theorem menu_step_changeEmail_frame (st : SessionState) (r : Fetch (List Char)) :
    (menu_step st (Choice.changeEmail r)).state.last_count = st.last_count ∧
    (menu_step st (Choice.changeEmail r)).newMailReport = false := by
  cases r with
  | success a =>
    cases h : unpack2 (splitAtChar '@' a) with
    | none => simp [menu_step, secmail_get_mailbox, h]
    | some p => cases p with
      | mk l d => simp [menu_step, secmail_get_mailbox, h]
  | failure e => exact ⟨rfl, rfl⟩

/-- Example one-message inbox used in concrete counterexamples. -/
def exMsgs : List MsgSummary := [⟨some "7", some "x@y.com", some "Hi"⟩]

/-- Example full message carrying only a preview/intro field. -/
def exIntroOnly : MsgFull :=
  ⟨some "9", some "x@y.com", some "Hi", none, none, some "preview text"⟩

/-- Example full message whose `from` and `subject` are absent. -/
def exNoFrom : MsgFull := ⟨some "7", none, none, none, none, none⟩

/-- Claim C1 (counterexample): with the primary creation attempt failing,
the initialization path issues no fallback creation call at all — the
claimed "fallback attempted exactly once" does not hold. -/
theorem provisioning_no_fallback_call :
    (run_interface_init_calls (Fetch.failure FetchError.network)).count
        ProviderCall.fallbackCreate = 0 ∧
    run_interface_init (Fetch.failure FetchError.network) =
      InitOutcome.failedInit := by
  exact ⟨rfl, rfl⟩

/-- Claim C1 (amended): if the primary provider's creation call fails for
any of the caught failure kinds, no fallback provider is attempted: the
only provider call made is the primary one, a single initialization
failure is surfaced, and no mailbox is produced. -/
theorem provisioning_single_failure_no_fallback (e : FetchError) :
    run_interface_init (Fetch.failure e) = InitOutcome.failedInit ∧
    run_interface_init_calls (Fetch.failure e) = [ProviderCall.primaryCreate] ∧
    (run_interface_init_calls (Fetch.failure e)).count
        ProviderCall.fallbackCreate = 0 := by
  exact ⟨rfl, rfl, rfl⟩

/-- Claim C2 (counterexample): the delayed refresh completes within the
window with content equal to the fast result, yet "Inbox updated." is
shown — the flag does not require the results to differ in content. -/
theorem updated_flag_set_despite_equal_content :
    fast_inbox_flag (Fetch.success exMsgs) (Fetch.success exMsgs) false true
      = true ∧
    claimed_updated_flag exMsgs exMsgs true = false := by
  constructor
  · rfl
  · simp [claimed_updated_flag]

/-- Claim C2 (amended): the "Inbox updated." flag is set iff the delayed
refresh completes within the observation window and its write happened
(the sleep/assignment did not raise); content plays no role because the
check is object identity and the refresh always installs a fresh list.
A completion after the window never sets the flag, though the detached
task still writes the cell. -/
theorem updated_flag_iff_completed_within_window
    (fastR bgR : Fetch (List MsgSummary)) (sleepFails completedInWindow : Bool) :
    fast_inbox_flag fastR bgR sleepFails completedInWindow =
      (completedInWindow && !sleepFails) ∧
    fast_inbox_flag fastR bgR sleepFails false = false ∧
    fast_inbox_final_cell fastR bgR false =
      Cell.refreshedObj (secmail_list_messages bgR) := by
  refine ⟨?_, rfl, rfl⟩
  cases sleepFails <;> cases completedInWindow <;>
    simp [fast_inbox_flag, background_refresh, isFastObj]

/-- Claim C3 (confirmed): the explicit refresh (menu choice 5) reports
"New messages arrived" iff the refreshed list is strictly longer than
the last observed count, and afterwards the observed count is the
refreshed list's length — ids are never consulted. -/
theorem refresh_count_comparison (st : SessionState)
    (listR : Fetch (List MsgSummary)) :
    ((menu_step st (Choice.refresh listR)).newMailReport = true ↔
      st.last_count < (secmail_list_messages listR).length) ∧
    (menu_step st (Choice.refresh listR)).state.last_count =
      (secmail_list_messages listR).length := by
  constructor
  · simp [menu_step]
  · rfl

/-- Claim C4 (counterexample): a payload with no text body and no HTML
body but a present preview/intro field yields the "(no body)" sentinel,
not the intro text — the claimed third preference step does not exist. -/
theorem body_skips_intro_field :
    message_body exIntroOnly = "(no body)" ∧
    claimed_message_body exIntroOnly = "preview text" ∧
    message_body exIntroOnly ≠ claimed_message_body exIntroOnly := by
  refine ⟨rfl, rfl, ?_⟩
  simp [message_body, claimed_message_body, exIntroOnly, pyOrStr]

/-- Claim C4 (amended): body extraction is total and follows the fixed
two-step preference order: the text body if present and non-empty, else
the HTML body if present and non-empty, else the "(no body)" sentinel;
the preview/intro field is never consulted, and the saved body is the
same string as the displayed one. -/
theorem body_preference_order_total (m : MsgFull) (s t : String) :
    (m.textBody = some s → s ≠ "" → message_body m = s) ∧
    ((m.textBody = none ∨ m.textBody = some "") → m.htmlBody = some t →
      t ≠ "" → message_body m = t) ∧
    ((m.textBody = none ∨ m.textBody = some "") →
      (m.htmlBody = none ∨ m.htmlBody = some "") →
      message_body m = "(no body)") ∧
    save_message_body m = message_body m := by
  refine ⟨?_, ?_, ?_, rfl⟩
  · intro h hs
    simp [message_body, h, pyOrStr, hs]
  · intro h1 h2 ht
    rcases h1 with h1 | h1 <;> simp [message_body, h1, h2, pyOrStr, ht]
  · intro h1 h2
    rcases h1 with h1 | h1 <;> rcases h2 with h2 | h2 <;>
      simp [message_body, h1, h2, pyOrStr]

/-- Claim C4 witness: concrete applications of the amended theorem. -/
theorem body_preference_order_total_witness :
    message_body ⟨none, none, none, some "hello", some "<p>x</p>", none⟩
      = "hello" ∧
    message_body ⟨none, none, none, none, some "<p>x</p>", none⟩
      = "<p>x</p>" ∧
    message_body ⟨none, none, none, none, none, some "peek"⟩ = "(no body)" := by
  refine ⟨?_, ?_, ?_⟩
  · exact (body_preference_order_total
      ⟨none, none, none, some "hello", some "<p>x</p>", none⟩ "hello" "x").1
      rfl (by decide)
  · exact ((body_preference_order_total
      ⟨none, none, none, none, some "<p>x</p>", none⟩ "y" "<p>x</p>").2.1)
      (Or.inl rfl) rfl (by decide)
  · exact ((body_preference_order_total
      ⟨none, none, none, none, none, some "peek"⟩ "y" "z").2.2.1)
      (Or.inl rfl) (Or.inl rfl)

/-- Claim C5 (confirmed): every caught failure of a list call yields the
empty list and every caught failure of a read call yields an absent
result; successes pass the payload through, and both operations are
total functions of the call outcome (nothing escapes to the caller). -/
theorem fetch_failures_degrade_gracefully (e : FetchError)
    (ms : List MsgSummary) (m : MsgFull) :
    secmail_list_messages (Fetch.failure e) = [] ∧
    secmail_read_message (Fetch.failure e) = none ∧
    secmail_list_messages (Fetch.success ms) = ms ∧
    secmail_read_message (Fetch.success m) = some m := by
  exact ⟨rfl, rfl, rfl, rfl⟩

/-- Claim C6 (counterexample): when the delayed refresh's list call
fails, the cell is overwritten with a fresh empty list — it no longer
holds the fast result — and a within-window observation of that failed
refresh does set "Inbox updated.". -/
theorem failed_refresh_overwrites_cell :
    background_refresh false (Fetch.failure FetchError.timeout)
        (Cell.fastObj exMsgs) = Cell.refreshedObj [] ∧
    Cell.refreshedObj [] ≠ Cell.fastObj exMsgs ∧
    fast_inbox_flag (Fetch.success exMsgs) (Fetch.failure FetchError.timeout)
        false true = true := by
  refine ⟨rfl, ?_, rfl⟩
  simp

/-- Claim C6 (amended): a failure of the list call inside the delayed
refresh is swallowed by `secmail_list_messages` itself, so the refresh
still overwrites the cell — with a fresh empty list — and, observed
within the window, sets the updated flag; the cell is left unchanged
only when the sleep or the assignment itself raises. -/
theorem failed_refresh_writes_empty_list (e : FetchError) (cell : Cell)
    (r fastR : Fetch (List MsgSummary)) :
    background_refresh false (Fetch.failure e) cell = Cell.refreshedObj [] ∧
    background_refresh true r cell = cell ∧
    fast_inbox_flag fastR (Fetch.failure e) false true = true := by
  exact ⟨rfl, rfl, rfl⟩

/-- Claim C7 (counterexample): a change-email whose provider call
succeeds with an address containing no "@" replaces `email` but leaves
the old `login`/`domain` in place — a partly updated triple violating
`address == login + "@" + domain`. -/
theorem change_email_leaves_stale_fields :
    menu_step ⟨"old@dom".toList, "old".toList, "dom".toList, 0⟩
        (Choice.changeEmail (Fetch.success "noat".toList)) =
      ⟨⟨"noat".toList, "old".toList, "dom".toList, 0⟩, false, false⟩ ∧
    "noat".toList ≠ "old".toList ++ '@' :: "dom".toList := by
  exact ⟨rfl, by decide⟩

/-- Claim C7 (amended): whenever the provider's returned address splits
at "@" into exactly two pieces, the invariant and wholesale replacement
hold: initialization produces a state satisfying
`email = login ++ "@" ++ domain`, and change-email replaces the whole
triple at once while keeping `last_count`; only an address that does not
split into two pieces breaks this (crash at initialization, stale
`login`/`domain` on change-email). -/
theorem change_email_wellformed_wholesale (st : SessionState)
    (a l d : List Char) (h : splitAtChar '@' a = [l, d]) :
    menu_step st (Choice.changeEmail (Fetch.success a)) =
      ⟨⟨a, l, d, st.last_count⟩, false, false⟩ ∧
    a = l ++ '@' :: d ∧
    run_interface_init (Fetch.success a) =
      InitOutcome.started ⟨a, l, d, 0⟩ := by
  refine ⟨?_, splitAtChar_pair '@' a l d h, ?_⟩
  · simp [menu_step, secmail_get_mailbox, h, unpack2]
  · simp [run_interface_init, secmail_get_mailbox, h, unpack2]

/-- Claim C7 witness: the amended theorem applied to a concrete
well-formed address. -/
theorem change_email_wellformed_wholesale_witness :
    menu_step ⟨[], [], [], 3⟩ (Choice.changeEmail (Fetch.success "ab@cd".toList)) =
      ⟨⟨"ab@cd".toList, "ab".toList, "cd".toList, 3⟩, false, false⟩ ∧
    "ab@cd".toList = "ab".toList ++ '@' :: "cd".toList ∧
    run_interface_init (Fetch.success "ab@cd".toList) =
      InitOutcome.started ⟨"ab@cd".toList, "ab".toList, "cd".toList, 0⟩ :=
  change_email_wellformed_wholesale ⟨[], [], [], 3⟩
    ("ab@cd".toList) ("ab".toList) ("cd".toList) (by decide)

/-- Claim C8 (counterexample): for a message whose `from`/`subject` are
absent, the read-message view prints the raw interpolation "From: None"
rather than the "(unknown)" sentinel the inbox table uses — not all
user-facing rendering substitutes the placeholders. -/
theorem read_view_prints_raw_none :
    read_view_from_line exNoFrom = "From: None" ∧
    read_view_subject_line exNoFrom = "Subject: None" ∧
    read_view_from_line exNoFrom ≠ "From: (unknown)" ∧
    inbox_row_from ⟨some "7", none, none⟩ = "(unknown)" := by
  refine ⟨rfl, rfl, ?_, rfl⟩
  simp [read_view_from_line, exNoFrom, pyNoneStr]

/-- Claim C8 (amended): the sentinel substitution for absent
`from`/`subject` happens in the inbox table rendering (`show_inbox`),
while the read-message view interpolates the raw value and so shows
"None" for an absent field. -/
theorem sentinels_in_table_not_in_read_view (m : MsgSummary) (f : MsgFull)
    (hm : m.from_ = none) (hs : m.subject = none)
    (hf : f.from_ = none) (hfs : f.subject = none) :
    inbox_row_from m = "(unknown)" ∧
    inbox_row_subject m = "(no subject)" ∧
    read_view_from_line f = "From: None" ∧
    read_view_subject_line f = "Subject: None" := by
  refine ⟨?_, ?_, ?_, ?_⟩
  · simp [inbox_row_from, pyOrStr, hm]
  · simp only [inbox_row_subject, pyOrStr, hs]
    decide
  · simp [read_view_from_line, pyNoneStr, hf]
  · simp [read_view_subject_line, pyNoneStr, hfs]

/-- Claim C8 witness: the amended theorem applied to concrete messages
with absent fields. -/
theorem sentinels_in_table_not_in_read_view_witness :
    inbox_row_from ⟨some "3", none, none⟩ = "(unknown)" ∧
    inbox_row_subject ⟨some "3", none, none⟩ = "(no subject)" ∧
    read_view_from_line ⟨some "3", none, none, none, none, none⟩
      = "From: None" ∧
    read_view_subject_line ⟨some "3", none, none, none, none, none⟩
      = "Subject: None" :=
  sentinels_in_table_not_in_read_view ⟨some "3", none, none⟩
    ⟨some "3", none, none, none, none, none⟩ rfl rfl rfl rfl

/-- Claim C9 (confirmed): the initialization `try` covers only the
creation call — any caught creation failure degrades to a graceful
message — but a successfully returned address whose "@" count is not
exactly one makes the unpacking of `email.split("@")` raise outside any
handler: the session crashes. -/
theorem init_crashes_on_malformed_address (s : List Char)
    (h : s.count '@' ≠ 1) :
    run_interface_init (Fetch.success s) = InitOutcome.crashed ∧
    ∀ e, run_interface_init (Fetch.failure e) = InitOutcome.failedInit := by
  constructor
  · have hlen : (splitAtChar '@' s).length ≠ 2 := by
      rw [splitAtChar_length]
      omega
    simp [run_interface_init, secmail_get_mailbox, unpack2_eq_none _ hlen]
  · intro e
    rfl

/-- Claim C9 witness: a returned address with no "@" crashes the
initialization; one with two "@"s crashes it as well. -/
theorem init_crashes_on_malformed_address_witness :
    ("noat".toList.count '@' ≠ 1) ∧
    (run_interface_init (Fetch.success "noat".toList) = InitOutcome.crashed ∧
      ∀ e, run_interface_init (Fetch.failure e) = InitOutcome.failedInit) ∧
    ("a@b@c".toList.count '@' ≠ 1) ∧
    run_interface_init (Fetch.success "a@b@c".toList) = InitOutcome.crashed :=
  ⟨by decide,
   init_crashes_on_malformed_address ("noat".toList) (by decide),
   by decide,
   (init_crashes_on_malformed_address ("a@b@c".toList) (by decide)).1⟩

/-- Claim C10 (confirmed): `last_count` is read and written only by the
explicit refresh (choice 5): fast-inbox, read-message, change-email and
copy leave it unchanged and never emit the new-mail report, and a
refresh right after a mailbox change still compares against the count
observed on the old mailbox. -/
theorem last_count_frame (st : SessionState)
    (fastR bgR listR listR2 : Fetch (List MsgSummary)) (sf w : Bool)
    (inp : String) (readR : Fetch MsgFull) (r : Fetch (List Char)) :
    (menu_step st (Choice.showFast fastR sf bgR w)).state.last_count
        = st.last_count ∧
    (menu_step st (Choice.readMsg listR inp readR)).state.last_count
        = st.last_count ∧
    (menu_step st (Choice.changeEmail r)).state.last_count = st.last_count ∧
    (menu_step st Choice.copyAddr).state.last_count = st.last_count ∧
    (menu_step st (Choice.showFast fastR sf bgR w)).newMailReport = false ∧
    (menu_step st (Choice.readMsg listR inp readR)).newMailReport = false ∧
    (menu_step st (Choice.changeEmail r)).newMailReport = false ∧
    (menu_step st Choice.copyAddr).newMailReport = false ∧
    ((menu_step (menu_step st (Choice.changeEmail r)).state
        (Choice.refresh listR2)).newMailReport = true ↔
      st.last_count < (secmail_list_messages listR2).length) := by
  obtain ⟨hc1, hc2⟩ := menu_step_changeEmail_frame st r
  refine ⟨rfl, rfl, hc1, rfl, rfl, rfl, hc2, rfl, ?_⟩
  have h5 : (menu_step (menu_step st (Choice.changeEmail r)).state
      (Choice.refresh listR2)).newMailReport
      = decide ((secmail_list_messages listR2).length >
        (menu_step st (Choice.changeEmail r)).state.last_count) := rfl
  rw [h5, hc1, decide_eq_true_eq]
